import Mathlib

/-!
Verification of gtk/gtkaccessiblevalue.c: the GtkAccessibleValue tagged,
reference-counted value container, its concrete value kinds, and the
state/property collect tables with their decode and default dispatch.

Modelling conventions:

* C doubles are modelled by `GDouble`: an exact rational for finite values
  plus the two infinities and NaN, with IEEE 754 semantics for comparison
  and subtraction on the special values.  Finite arithmetic is exact; no
  verified statement depends on rounding of finite operations.  The C
  literal `0.001` is modelled by the exact rational `1/1000`.
* Pointers are modelled by `Nat` addresses and nullable pointers by
  `Option`.  A live `GtkAccessibleValue *` is a `ValueRef`: an address
  paired with the instance data; the C pointer comparison
  `value_a == value_b` becomes comparison of the addresses.
* `GString` buffers are modelled by `String`, appending by concatenation.
* The `value_class` function-pointer dispatch is a closed world here
  (exactly the kinds reachable from this translation unit), so it is
  modelled by exhaustive matches on the data constructor, one modelled
  function per static C function of the source.
-/

/-- Model of a C `double`: exact rational finite values plus the IEEE 754
special values.  Only the operations the source uses are defined. -/
inductive GDouble where
  | finite (q : ℚ)
  | posInf
  | negInf
  | nan
  deriving DecidableEq

/-- IEEE 754 `<` on doubles: any comparison involving NaN is false. -/
def GDouble.lt : GDouble → GDouble → Bool
  | .nan, _ => false
  | _, .nan => false
  | .finite a, .finite b => decide (a < b)
  | .finite _, .posInf => true
  | .finite _, .negInf => false
  | .posInf, _ => false
  | .negInf, .negInf => false
  | .negInf, _ => true

/-- IEEE 754 `>` on doubles: `a > b` holds exactly when `b < a`. -/
def GDouble.gt (a b : GDouble) : Bool :=
  GDouble.lt b a

/-- IEEE 754 subtraction, restricted to the sign/NaN structure the source
can observe: `inf - inf` is NaN, NaN propagates. -/
def GDouble.sub : GDouble → GDouble → GDouble
  | .nan, _ => .nan
  | _, .nan => .nan
  | .finite a, .finite b => .finite (a - b)
  | .finite _, .posInf => .negInf
  | .finite _, .negInf => .posInf
  | .posInf, .posInf => .nan
  | .posInf, _ => .posInf
  | .negInf, .negInf => .nan
  | .negInf, _ => .negInf

/-- glib's documented macro
`G_APPROX_VALUE(a, b, epsilon) = (((a) > (b) ? (a) - (b) : (b) - (a)) < (epsilon))`,
used by `gtk_number_accessible_value_equal` with epsilon `0.001`. -/
def G_APPROX_VALUE (a b epsilon : GDouble) : Bool :=
  GDouble.lt (if GDouble.gt a b then GDouble.sub a b else GDouble.sub b a) epsilon

/-- Modelled from the spec: the token value kinds (checked, tristate
expanded/grabbed/selected, invalid, pressed, autocomplete, orientation,
sort) are defined outside this translation unit; each token constructor
produces a value of its own kind.  This tag records which kind. -/
inductive TokenFamily where
  | checked
  | expanded
  | grabbed
  | invalid
  | pressed
  | selected
  | autocomplete
  | orientation
  | sort
  deriving DecidableEq

/-- The kind-specific payload of a `GtkAccessibleValue` instance, one
constructor per concrete subclass struct.  `stringVal` keeps both the
owned string and the cached `length` field of `GtkStringAccessibleValue`;
`refVal` holds the weak link of `GtkReferenceAccessibleValue`, which is
`none` once cleared.  `booleanVal` and `tokenVal` model the kinds whose
constructors are declared but defined outside this translation unit. -/
inductive ValueData where
  | intVal (value : Int)
  | numberVal (value : GDouble)
  | stringVal (value : String) (length : Nat)
  | refVal (ref : Option Nat)
  | booleanVal (value : Bool)
  | tokenVal (family : TokenFamily) (value : Int)
  deriving DecidableEq

/-- A live `GtkAccessibleValue *`: heap address plus instance data.
Distinct instances have distinct addresses; the C pointer equality test
is address equality. -/
structure ValueRef where
  addr : Nat
  data : ValueData
  deriving DecidableEq

/-- `gtk_int_accessible_value_equal`: exact comparison of the int
payloads.  The C function casts both arguments to
`GtkIntAccessibleValue *`; a cross-kind call reinterprets memory and is
undefined, modelled as `false` (unreachable through same-kind dispatch). -/
def gtk_int_accessible_value_equal : ValueData → ValueData → Bool
  | .intVal a, .intVal b => decide (a = b)
  | _, _ => false

/-- `gtk_number_accessible_value_equal`:
`G_APPROX_VALUE (self_a->value, self_b->value, 0.001)`. -/
def gtk_number_accessible_value_equal : ValueData → ValueData → Bool
  | .numberVal a, .numberVal b => G_APPROX_VALUE a b (.finite (1/1000))
  | _, _ => false

/-- `gtk_string_accessible_value_equal`: cached lengths must match, then
`g_strcmp0` content comparison (string equality for the non-NULL owned
strings the constructor produces). -/
def gtk_string_accessible_value_equal : ValueData → ValueData → Bool
  | .stringVal sa la, .stringVal sb lb =>
      if la ≠ lb then false else decide (sa = sb)
  | _, _ => false

/-- `gtk_reference_accessible_value_equal`: pointer identity of the weak
links (`self_a->ref == self_b->ref`), with cleared links compared as NULL. -/
def gtk_reference_accessible_value_equal : ValueData → ValueData → Bool
  | .refVal a, .refVal b => decide (a = b)
  | _, _ => false

/-- Modelled from the spec: the boolean kind's equality (the kind and its
static instances are defined outside this translation unit); token kinds
compare exactly. -/
def gtk_boolean_accessible_value_equal : ValueData → ValueData → Bool
  | .booleanVal a, .booleanVal b => decide (a = b)
  | _, _ => false

/-- Modelled from the spec: exact equality for the token kinds defined
outside this translation unit; values of different token kinds dispatch
through different classes and never compare equal. -/
def gtk_token_accessible_value_equal : ValueData → ValueData → Bool
  | .tokenVal fa va, .tokenVal fb vb => decide (fa = fb) && decide (va = vb)
  | _, _ => false

/-- The `value_class->equal` dispatch: the class is determined by the
kind of the first argument, exactly as `value_a->value_class->equal`. -/
def class_equal (a b : ValueData) : Bool :=
  match a with
  | .intVal _ => gtk_int_accessible_value_equal a b
  | .numberVal _ => gtk_number_accessible_value_equal a b
  | .stringVal _ _ => gtk_string_accessible_value_equal a b
  | .refVal _ => gtk_reference_accessible_value_equal a b
  | .booleanVal _ => gtk_boolean_accessible_value_equal a b
  | .tokenVal _ _ => gtk_token_accessible_value_equal a b

/-- Rendering of a double by `g_string_append_printf (…, "%g", …)`.  The
exact `%g` format lives in the C library; no verified statement depends
on it, only on prints of the other kinds. -/
def GDouble.repr : GDouble → String
  | .finite q => toString q
  | .posInf => "inf"
  | .negInf => "-inf"
  | .nan => "nan"

/-- `G_OBJECT_TYPE_NAME` of the referenced accessible object: external to
this translation unit (GObject); no verified statement depends on it. -/
def G_OBJECT_TYPE_NAME (_obj : Nat) : String :=
  "GtkAccessible"

/-- `gtk_int_accessible_value_print`: appends the decimal rendering
(`"%d"`) of the payload. -/
def gtk_int_accessible_value_print : ValueData → String → String
  | .intVal v, buffer => buffer ++ toString v
  | _, buffer => buffer

/-- `gtk_number_accessible_value_print`: appends the `"%g"` rendering. -/
def gtk_number_accessible_value_print : ValueData → String → String
  | .numberVal v, buffer => buffer ++ GDouble.repr v
  | _, buffer => buffer

/-- `gtk_string_accessible_value_print`: `g_string_append (buffer,
self->value)` — the raw owned string, unmodified. -/
def gtk_string_accessible_value_print : ValueData → String → String
  | .stringVal s _, buffer => buffer ++ s
  | _, buffer => buffer

/-- `gtk_reference_accessible_value_print`: `"%s<%p>"` with the type name
and address while the link is set, and the sentinel `"<null>"` once the
weak link has been cleared. -/
def gtk_reference_accessible_value_print : ValueData → String → String
  | .refVal (some r), buffer => buffer ++ G_OBJECT_TYPE_NAME r ++ "<" ++ toString r ++ ">"
  | .refVal none, buffer => buffer ++ "<null>"
  | _, buffer => buffer

/-- Modelled from the spec: printing for the boolean/token kinds defined
outside this translation unit (a human-readable token; exact text not
specified by the source in src/). -/
def gtk_token_like_print : ValueData → String → String
  | .booleanVal b, buffer => buffer ++ (if b then "true" else "false")
  | .tokenVal _ v, buffer => buffer ++ toString v
  | _, buffer => buffer

/-- The `value_class->print` dispatch (every class in this translation
unit defines a printer). -/
def class_print (d : ValueData) (buffer : String) : String :=
  match d with
  | .intVal _ => gtk_int_accessible_value_print d buffer
  | .numberVal _ => gtk_number_accessible_value_print d buffer
  | .stringVal _ _ => gtk_string_accessible_value_print d buffer
  | .refVal _ => gtk_reference_accessible_value_print d buffer
  | .booleanVal _ => gtk_token_like_print d buffer
  | .tokenVal _ _ => gtk_token_like_print d buffer

/-- Which classes set the `finalize` slot: `GtkStringAccessibleValue`
(frees the owned string) and `GtkReferenceAccessibleValue` (unregisters
the weak link); the int and number classes leave it NULL, and the
spec-described static boolean/token kinds own no external resources. -/
def class_hasFinalize : ValueData → Bool
  | .stringVal _ _ => true
  | .refVal _ => true
  | _ => false

/-- `gtk_accessible_value_equal`: NULL-safe.  `value_a == value_b`
(including both NULL) short-circuits to TRUE, exactly one NULL gives
FALSE, otherwise `value_a->value_class->equal (value_a, value_b)`. -/
def gtk_accessible_value_equal (value_a value_b : Option ValueRef) : Bool :=
  match value_a, value_b with
  | none, none => true
  | none, some _ => false
  | some _, none => false
  | some a, some b =>
      if a.addr = b.addr then true else class_equal a.data b.data

/-- `gtk_accessible_value_print`: NULL self is a checked precondition
(buffer untouched); otherwise dispatches to the class printer. -/
def gtk_accessible_value_print (self : Option ValueData) (buffer : String) : String :=
  match self with
  | none => buffer
  | some d => class_print d buffer

/-- `gtk_accessible_value_to_string`: NULL self yields NULL; otherwise
prints into a fresh empty `GString` and hands the buffer over. -/
def gtk_accessible_value_to_string (self : Option ValueData) : Option String :=
  match self with
  | none => none
  | some d => some (gtk_accessible_value_print (some d) "")

/-- `gtk_int_accessible_value_new`: allocates a `GtkIntAccessibleValue`
and stores the payload. -/
def gtk_int_accessible_value_new (value : Int) : ValueData :=
  .intVal value

/-- `gtk_number_accessible_value_new`. -/
def gtk_number_accessible_value_new (value : GDouble) : ValueData :=
  .numberVal value

/-- `gtk_string_accessible_value_new`: copies the input string
(`g_strdup`) and caches its length (`strlen`). -/
def gtk_string_accessible_value_new (str : String) : ValueData :=
  .stringVal str str.length

/-- `gtk_reference_accessible_value_new`: the checked precondition
`GTK_IS_ACCESSIBLE (ref)` rejects NULL (returns NULL); otherwise stores
the link and registers `remove_weak_ref` on the referenced object. -/
def gtk_reference_accessible_value_new : Option Nat → Option ValueData
  | none => none
  | some ref => some (.refVal (some ref))

/-- `remove_weak_ref`: the weak-reference deregistration callback run
when the referenced object is destroyed first; clears the link
(`self->ref = NULL`).  Only reference instances register it. -/
def remove_weak_ref : ValueData → ValueData
  | .refVal _ => .refVal none
  | d => d

/-- `gtk_int_accessible_value_get`: checked preconditions (non-NULL,
class is `GTK_INT_ACCESSIBLE_VALUE`) return the neutral 0; otherwise the
payload. -/
def gtk_int_accessible_value_get : Option ValueData → Int
  | some (.intVal v) => v
  | _ => 0

/-- `gtk_number_accessible_value_get`: precondition failure returns 0
(the double 0.0); otherwise the payload. -/
def gtk_number_accessible_value_get : Option ValueData → GDouble
  | some (.numberVal v) => v
  | _ => .finite 0

/-- `gtk_string_accessible_value_get`: precondition failure returns the
NULL pointer; otherwise the owned string. -/
def gtk_string_accessible_value_get : Option ValueData → Option String
  | some (.stringVal s _) => some s
  | _ => none

/-- `gtk_reference_accessible_value_get`: precondition failure returns
NULL; otherwise the (possibly already cleared) weak link. -/
def gtk_reference_accessible_value_get : Option ValueData → Option Nat
  | some (.refVal r) => r
  | _ => none

/-- Modelled from the spec: `gtk_boolean_accessible_value_new`, declared
here but defined outside this translation unit; produces the boolean
value for the payload (statically allocated in GTK, value semantics are
what matter here). -/
def gtk_boolean_accessible_value_new (value : Bool) : ValueData :=
  .booleanVal value

/-- Modelled from the spec: `gtk_checked_accessible_value_new` (token
kind ctor defined outside this translation unit). -/
def gtk_checked_accessible_value_new (value : Int) : ValueData :=
  .tokenVal .checked value

/-- Modelled from the spec: `gtk_expanded_accessible_value_new`. -/
def gtk_expanded_accessible_value_new (value : Int) : ValueData :=
  .tokenVal .expanded value

/-- Modelled from the spec: `gtk_grabbed_accessible_value_new`. -/
def gtk_grabbed_accessible_value_new (value : Int) : ValueData :=
  .tokenVal .grabbed value

/-- Modelled from the spec: `gtk_invalid_accessible_value_new`. -/
def gtk_invalid_accessible_value_new (value : Int) : ValueData :=
  .tokenVal .invalid value

/-- Modelled from the spec: `gtk_pressed_accessible_value_new`. -/
def gtk_pressed_accessible_value_new (value : Int) : ValueData :=
  .tokenVal .pressed value

/-- Modelled from the spec: `gtk_selected_accessible_value_new`. -/
def gtk_selected_accessible_value_new (value : Int) : ValueData :=
  .tokenVal .selected value

/-- Modelled from the spec: `gtk_autocomplete_accessible_value_new`. -/
def gtk_autocomplete_accessible_value_new (value : Int) : ValueData :=
  .tokenVal .autocomplete value

/-- Modelled from the spec: `gtk_orientation_accessible_value_new`. -/
def gtk_orientation_accessible_value_new (value : Int) : ValueData :=
  .tokenVal .orientation value

/-- Modelled from the spec: `gtk_sort_accessible_value_new`. -/
def gtk_sort_accessible_value_new (value : Int) : ValueData :=
  .tokenVal .sort value

/-- Modelled from the spec: enum constant from gtkenums.h (value not
observable by any verified statement). -/
def GTK_ACCESSIBLE_CHECKED_UNDEFINED : Int := 2

/-- Modelled from the spec: the tristate undefined token. -/
def GTK_ACCESSIBLE_STATE_UNDEFINED : Int := -1

/-- Modelled from the spec: enum constant from gtkenums.h. -/
def GTK_ACCESSIBLE_INVALID_FALSE : Int := 0

/-- Modelled from the spec: enum constant from gtkenums.h. -/
def GTK_ACCESSIBLE_PRESSED_UNDEFINED : Int := -1

/-- Modelled from the spec: enum constant from gtkenums.h. -/
def GTK_ACCESSIBLE_AUTOCOMPLETE_NONE : Int := 0

/-- Modelled from the spec: enum constant from gtkenums.h. -/
def GTK_ORIENTATION_HORIZONTAL : Int := 0

/-- Modelled from the spec: enum constant from gtkenums.h. -/
def GTK_ACCESSIBLE_SORT_NONE : Int := 0

/-- The accessible states, in the dense order of the `collect_states`
table (`GTK_ACCESSIBLE_STATE_BUSY` first). -/
inductive GtkAccessibleState where
  | busy
  | checked
  | disabled
  | expanded
  | grabbed
  | hidden
  | invalid
  | pressed
  | selected
  deriving DecidableEq

/-- The accessible properties, in the dense order of the `collect_props`
table (`GTK_ACCESSIBLE_PROPERTY_ACTIVE_DESCENDANT` first). -/
inductive GtkAccessibleProperty where
  | activeDescendant
  | autocomplete
  | controls
  | describedBy
  | flowTo
  | hasPopup
  | label
  | labelledBy
  | level
  | multiLine
  | multiSelectable
  | orientation
  | owns
  | posInSet
  | readOnly
  | relevant
  | required
  | setSize
  | sort
  | valueMax
  | valueMin
  | valueNow
  | valueText
  deriving DecidableEq

/-- `GtkAccessibleCollectType`: the `ctype` tag of a table row. -/
inductive GtkAccessibleCollectType where
  | invalid
  | boolean
  | int
  | tristate
  | enum
  | number
  | string
  | ref
  deriving DecidableEq

/-- The constructor column of the collect tables (`GCallback ctor`),
identified by name; the collect switches cast it to the signature
selected by the row's `ctype`. -/
inductive CollectCtor where
  | booleanNew
  | checkedNew
  | expandedNew
  | grabbedNew
  | invalidNew
  | pressedNew
  | selectedNew
  | autocompleteNew
  | orientationNew
  | sortNew
  | intNew
  | numberNew
  | stringNew
  | referenceNew
  deriving DecidableEq

/-- One row of a collect table: attribute id, collected type, diagnostic
name, constructor. -/
structure GtkAccessibleCollect (α : Type) where
  value : α
  ctype : GtkAccessibleCollectType
  name : String
  ctor : CollectCtor
  deriving DecidableEq

/-- The `collect_states` table, indexed densely by the state id. -/
def collect_states : GtkAccessibleState → GtkAccessibleCollect GtkAccessibleState
  | .busy => ⟨.busy, .boolean, "busy", .booleanNew⟩
  | .checked => ⟨.checked, .enum, "checked", .checkedNew⟩
  | .disabled => ⟨.disabled, .boolean, "disabled", .booleanNew⟩
  | .expanded => ⟨.expanded, .tristate, "expanded", .expandedNew⟩
  | .grabbed => ⟨.grabbed, .tristate, "grabbed", .grabbedNew⟩
  | .hidden => ⟨.hidden, .boolean, "hidden", .booleanNew⟩
  | .invalid => ⟨.invalid, .enum, "invalid", .invalidNew⟩
  | .pressed => ⟨.pressed, .enum, "pressed", .pressedNew⟩
  | .selected => ⟨.selected, .tristate, "selected", .selectedNew⟩

/-- The `collect_props` table, indexed densely by the property id. -/
def collect_props : GtkAccessibleProperty → GtkAccessibleCollect GtkAccessibleProperty
  | .activeDescendant => ⟨.activeDescendant, .ref, "activedescendant", .referenceNew⟩
  | .autocomplete => ⟨.autocomplete, .enum, "autocomplete", .autocompleteNew⟩
  | .controls => ⟨.controls, .ref, "controls", .referenceNew⟩
  | .describedBy => ⟨.describedBy, .ref, "describedby", .referenceNew⟩
  | .flowTo => ⟨.flowTo, .ref, "flowto", .referenceNew⟩
  | .hasPopup => ⟨.hasPopup, .boolean, "haspopup", .booleanNew⟩
  | .label => ⟨.label, .string, "label", .stringNew⟩
  | .labelledBy => ⟨.labelledBy, .ref, "labelledby", .referenceNew⟩
  | .level => ⟨.level, .int, "level", .intNew⟩
  | .multiLine => ⟨.multiLine, .boolean, "multiline", .booleanNew⟩
  | .multiSelectable => ⟨.multiSelectable, .boolean, "multiselectable", .booleanNew⟩
  | .orientation => ⟨.orientation, .enum, "orientation", .orientationNew⟩
  | .owns => ⟨.owns, .ref, "owns", .referenceNew⟩
  | .posInSet => ⟨.posInSet, .int, "posinset", .intNew⟩
  | .readOnly => ⟨.readOnly, .boolean, "readonly", .booleanNew⟩
  | .relevant => ⟨.relevant, .string, "relevant", .stringNew⟩
  | .required => ⟨.required, .boolean, "required", .booleanNew⟩
  | .setSize => ⟨.setSize, .int, "setsize", .intNew⟩
  | .sort => ⟨.sort, .enum, "sort", .sortNew⟩
  | .valueMax => ⟨.valueMax, .number, "valuemax", .numberNew⟩
  | .valueMin => ⟨.valueMin, .number, "valuemin", .numberNew⟩
  | .valueNow => ⟨.valueNow, .number, "valuenow", .numberNew⟩
  | .valueText => ⟨.valueText, .string, "valuetext", .stringNew⟩

/-- Calling the row's ctor through the boolean-ctor cast.  The cast-call
of any other ctor through this signature is undefined in C (never
happens: table rows pair boolean ctype only with the boolean ctor). -/
def applyBooleanCtor : CollectCtor → Bool → Option ValueData
  | .booleanNew, b => some (gtk_boolean_accessible_value_new b)
  | _, _ => none

/-- Calling the row's ctor through the int/tristate/enum ctor cast (all
three signatures take one `int`). -/
def applyIntCtor : CollectCtor → Int → Option ValueData
  | .intNew, v => some (gtk_int_accessible_value_new v)
  | .checkedNew, v => some (gtk_checked_accessible_value_new v)
  | .expandedNew, v => some (gtk_expanded_accessible_value_new v)
  | .grabbedNew, v => some (gtk_grabbed_accessible_value_new v)
  | .invalidNew, v => some (gtk_invalid_accessible_value_new v)
  | .pressedNew, v => some (gtk_pressed_accessible_value_new v)
  | .selectedNew, v => some (gtk_selected_accessible_value_new v)
  | .autocompleteNew, v => some (gtk_autocomplete_accessible_value_new v)
  | .orientationNew, v => some (gtk_orientation_accessible_value_new v)
  | .sortNew, v => some (gtk_sort_accessible_value_new v)
  | _, _ => none

/-- Calling the row's ctor through the number-ctor cast. -/
def applyNumberCtor : CollectCtor → GDouble → Option ValueData
  | .numberNew, v => some (gtk_number_accessible_value_new v)
  | _, _ => none

/-- Calling the row's ctor through the string-ctor cast. -/
def applyStringCtor : CollectCtor → String → Option ValueData
  | .stringNew, s => some (gtk_string_accessible_value_new s)
  | _, _ => none

/-- Calling the row's ctor through the reference-ctor cast. -/
def applyRefCtor : CollectCtor → Option Nat → Option ValueData
  | .referenceNew, p => gtk_reference_accessible_value_new p
  | _, _ => none

/-- One positional (`va_arg`) argument, tagged with the C type the caller
supplied it as. -/
inductive Arg where
  | boolArg (b : Bool)
  | intArg (i : Int)
  | doubleArg (d : GDouble)
  | stringArg (s : String)
  | ptrArg (p : Option Nat)
  deriving DecidableEq

/-- A self-describing boxed `GValue`, restricted to the runtime types the
collect switches extract. -/
inductive GValue where
  | boolVal (b : Bool)
  | intVal (i : Int)
  | enumVal (i : Int)
  | doubleVal (d : GDouble)
  | stringVal (s : Option String)
  | objectVal (o : Option Nat)
  deriving DecidableEq

/-- `g_value_get_boolean`: a wrongly typed box yields the type's default
(FALSE) after a GLib warning. -/
def g_value_get_boolean : GValue → Bool
  | .boolVal b => b
  | _ => false

/-- `g_value_get_int`. -/
def g_value_get_int : GValue → Int
  | .intVal i => i
  | _ => 0

/-- `g_value_get_enum`. -/
def g_value_get_enum : GValue → Int
  | .enumVal i => i
  | _ => 0

/-- `g_value_get_double`. -/
def g_value_get_double : GValue → GDouble
  | .doubleVal d => d
  | _ => .finite 0

/-- `g_value_get_string` (nullable). -/
def g_value_get_string : GValue → Option String
  | .stringVal s => s
  | _ => none

/-- `g_value_get_object` (nullable). -/
def g_value_get_object : GValue → Option Nat
  | .objectVal o => o
  | _ => none

/-- The `switch (cstate->ctype)` body shared verbatim by
`gtk_accessible_value_collect_for_state` and
`gtk_accessible_value_collect_for_property`: consume one positional
argument of the type selected by the row's `ctype` and call the row's
ctor through the matching cast.  `va_arg` with a mismatched caller type
is undefined in C, modelled as `none`; `GTK_ACCESSIBLE_COLLECT_INVALID`
hits the fatal-diagnostic default and returns NULL. -/
def collectFromArgs {α : Type} (cstate : GtkAccessibleCollect α) (args : List Arg) :
    Option ValueData :=
  match cstate.ctype with
  | .invalid => none
  | .boolean =>
      match args with
      | .boolArg b :: _ => applyBooleanCtor cstate.ctor b
      | _ => none
  | .int =>
      match args with
      | .intArg v :: _ => applyIntCtor cstate.ctor v
      | _ => none
  | .tristate =>
      match args with
      | .intArg v :: _ => applyIntCtor cstate.ctor v
      | _ => none
  | .enum =>
      match args with
      | .intArg v :: _ => applyIntCtor cstate.ctor v
      | _ => none
  | .number =>
      match args with
      | .doubleArg v :: _ => applyNumberCtor cstate.ctor v
      | _ => none
  | .string =>
      match args with
      | .stringArg s :: _ => applyStringCtor cstate.ctor s
      | _ => none
  | .ref =>
      match args with
      | .ptrArg p :: _ => applyRefCtor cstate.ctor p
      | _ => none

/-- The `switch (cstate->ctype)` body shared verbatim by
`gtk_accessible_value_collect_for_state_value` and
`gtk_accessible_value_collect_for_property_value`: extract the payload
from the box with the getter selected by the row's `ctype` and call the
row's ctor.  A NULL boxed string would crash `strlen` in the string
ctor (caller contract), modelled by propagating `none`. -/
def collectFromGValue {α : Type} (cstate : GtkAccessibleCollect α) (value : GValue) :
    Option ValueData :=
  match cstate.ctype with
  | .invalid => none
  | .boolean => applyBooleanCtor cstate.ctor (g_value_get_boolean value)
  | .int => applyIntCtor cstate.ctor (g_value_get_int value)
  | .tristate => applyIntCtor cstate.ctor (g_value_get_int value)
  | .enum => applyIntCtor cstate.ctor (g_value_get_enum value)
  | .number => applyNumberCtor cstate.ctor (g_value_get_double value)
  | .string => (g_value_get_string value).bind (applyStringCtor cstate.ctor)
  | .ref => applyRefCtor cstate.ctor (g_value_get_object value)

/-- `gtk_accessible_value_collect_for_state`. -/
def gtk_accessible_value_collect_for_state
    (state : GtkAccessibleState) (args : List Arg) : Option ValueData :=
  collectFromArgs (collect_states state) args

/-- `gtk_accessible_value_collect_for_state_value`. -/
def gtk_accessible_value_collect_for_state_value
    (state : GtkAccessibleState) (value : GValue) : Option ValueData :=
  collectFromGValue (collect_states state) value

/-- `gtk_accessible_value_collect_for_property`. -/
def gtk_accessible_value_collect_for_property
    (property : GtkAccessibleProperty) (args : List Arg) : Option ValueData :=
  collectFromArgs (collect_props property) args

/-- `gtk_accessible_value_collect_for_property_value`. -/
def gtk_accessible_value_collect_for_property_value
    (property : GtkAccessibleProperty) (value : GValue) : Option ValueData :=
  collectFromGValue (collect_props property) value

/-- `gtk_accessible_value_get_default_for_state`: switch on the table
row's `value` field; every branch constructs a fresh default (the switch
is exhaustive over the dense table, so the fatal default is
unreachable). -/
def gtk_accessible_value_get_default_for_state
    (state : GtkAccessibleState) : Option ValueData :=
  match (collect_states state).value with
  | .busy => some (gtk_boolean_accessible_value_new false)
  | .disabled => some (gtk_boolean_accessible_value_new false)
  | .hidden => some (gtk_boolean_accessible_value_new false)
  | .checked => some (gtk_checked_accessible_value_new GTK_ACCESSIBLE_CHECKED_UNDEFINED)
  | .expanded => some (gtk_expanded_accessible_value_new GTK_ACCESSIBLE_STATE_UNDEFINED)
  | .grabbed => some (gtk_grabbed_accessible_value_new GTK_ACCESSIBLE_STATE_UNDEFINED)
  | .invalid => some (gtk_invalid_accessible_value_new GTK_ACCESSIBLE_INVALID_FALSE)
  | .pressed => some (gtk_pressed_accessible_value_new GTK_ACCESSIBLE_PRESSED_UNDEFINED)
  | .selected => some (gtk_selected_accessible_value_new GTK_ACCESSIBLE_STATE_UNDEFINED)

/-- `gtk_accessible_value_get_default_for_property`: switch on the table
row's `value` field, grouped exactly as the source groups its case
labels (note that `RELEVANT` sits in the `return NULL` group). -/
def gtk_accessible_value_get_default_for_property
    (property : GtkAccessibleProperty) : Option ValueData :=
  match (collect_props property).value with
  | .activeDescendant => none
  | .controls => none
  | .describedBy => none
  | .flowTo => none
  | .labelledBy => none
  | .owns => none
  | .relevant => none
  | .hasPopup => some (gtk_boolean_accessible_value_new false)
  | .multiLine => some (gtk_boolean_accessible_value_new false)
  | .multiSelectable => some (gtk_boolean_accessible_value_new false)
  | .readOnly => some (gtk_boolean_accessible_value_new false)
  | .required => some (gtk_boolean_accessible_value_new false)
  | .level => some (gtk_int_accessible_value_new 0)
  | .posInSet => some (gtk_int_accessible_value_new 0)
  | .setSize => some (gtk_int_accessible_value_new 0)
  | .valueMax => some (gtk_number_accessible_value_new (.finite 0))
  | .valueMin => some (gtk_number_accessible_value_new (.finite 0))
  | .valueNow => some (gtk_number_accessible_value_new (.finite 0))
  | .label => some (gtk_string_accessible_value_new "")
  | .valueText => some (gtk_string_accessible_value_new "")
  | .autocomplete => some (gtk_autocomplete_accessible_value_new GTK_ACCESSIBLE_AUTOCOMPLETE_NONE)
  | .orientation => some (gtk_orientation_accessible_value_new GTK_ORIENTATION_HORIZONTAL)
  | .sort => some (gtk_sort_accessible_value_new GTK_ACCESSIBLE_SORT_NONE)

/-- The storage of one instance: live with its reference count and data,
or already freed (`g_free`). -/
inductive Mem where
  | live (refCount : Nat) (data : ValueData)
  | freed
  deriving DecidableEq

/-- Instance storage paired with the number of times the class
`finalize` hook has run on it. -/
structure RcState where
  mem : Mem
  finalizeCalls : Nat
  deriving DecidableEq

/-- `gtk_accessible_value_ref`: increments the reference count and
returns the same instance.  NULL is a checked precondition; touching a
freed instance is undefined in C and left inert here. -/
def gtk_accessible_value_ref : RcState → RcState
  | ⟨.live n d, k⟩ => ⟨.live (n + 1) d, k⟩
  | ⟨.freed, k⟩ => ⟨.freed, k⟩

/-- `gtk_accessible_value_unref`: decrements the reference count; on the
transition to zero runs the class `finalize` hook if the class has one,
then frees the storage.  Release after free is undefined in C and left
inert here. -/
def gtk_accessible_value_unref : RcState → RcState
  | ⟨.live n d, k⟩ =>
      if n - 1 = 0 then
        ⟨.freed, if class_hasFinalize d then k + 1 else k⟩
      else
        ⟨.live (n - 1) d, k⟩
  | ⟨.freed, k⟩ => ⟨.freed, k⟩

/-- Equivalence of a positional argument and a boxed value relative to a
row's collected type: the same payload supplied through both channels
(for the enum type, the positional `int` against the boxed enum; for
tristate, against the boxed `int`, as in the source). -/
def argMatches : GtkAccessibleCollectType → Arg → GValue → Prop
  | .boolean, .boolArg b, .boolVal b2 => b = b2
  | .int, .intArg v, .intVal v2 => v = v2
  | .tristate, .intArg v, .intVal v2 => v = v2
  | .enum, .intArg v, .enumVal v2 => v = v2
  | .number, .doubleArg d, .doubleVal d2 => d = d2
  | .string, .stringArg s, .stringVal s2 => s2 = some s
  | .ref, .ptrArg p, .objectVal p2 => p = p2
  | _, _, _ => False

/-- A payload is finite when it is not a non-finite double (the only
payloads on which kind equality fails to be reflexive). -/
def finitePayload : ValueData → Bool
  | .numberVal (.finite _) => true
  | .numberVal _ => false
  | _ => true

/-! ## Helper lemmas -/

/-- Kind equality of the number kind, written as a decision on the exact
absolute difference, for finite payloads. -/
theorem gdouble_approx_finite_iff (p q : ℚ) :
    G_APPROX_VALUE (.finite p) (.finite q) (.finite (1/1000)) = true ↔ |p - q| < 1/1000 := by
  rcases lt_or_le q p with h | h
  · have hg : GDouble.gt (GDouble.finite p) (GDouble.finite q) = true := by
      simp [GDouble.gt, GDouble.lt, h]
    rw [abs_of_pos (sub_pos.mpr h)]
    simp [G_APPROX_VALUE, hg, GDouble.sub, GDouble.lt]
  · have hg : GDouble.gt (GDouble.finite p) (GDouble.finite q) = false := by
      simp [GDouble.gt, GDouble.lt, not_lt.mpr h]
    rw [abs_sub_comm, abs_of_nonneg (sub_nonneg.mpr h)]
    simp [G_APPROX_VALUE, hg, GDouble.sub, GDouble.lt]

/-- Boolean form of the previous lemma. -/
theorem gdouble_approx_eq_decide (p q : ℚ) :
    G_APPROX_VALUE (.finite p) (.finite q) (.finite (1/1000)) = decide (|p - q| < 1/1000) := by
  have h := gdouble_approx_finite_iff p q
  by_cases hc : |p - q| < 1/1000
  · rw [decide_eq_true hc]
    exact h.mpr hc
  · rw [decide_eq_false hc]
    cases hb : G_APPROX_VALUE (.finite p) (.finite q) (.finite (1/1000)) with
    | false => rfl
    | true => exact absurd (h.mp hb) hc

/-- Kind equality is reflexive on every payload except the non-finite
doubles. -/
theorem class_equal_self_of_finite (d : ValueData) (h : finitePayload d = true) :
    class_equal d d = true := by
  cases d with
  | intVal v => simp [class_equal, gtk_int_accessible_value_equal]
  | numberVal g =>
      cases g with
      | finite q =>
          have : |q - q| < 1/1000 := by simp
          simpa [class_equal, gtk_number_accessible_value_equal] using
            (gdouble_approx_finite_iff q q).mpr this
      | posInf => simp [finitePayload] at h
      | negInf => simp [finitePayload] at h
      | nan => simp [finitePayload] at h
  | stringVal s l => simp [class_equal, gtk_string_accessible_value_equal]
  | refVal r => simp [class_equal, gtk_reference_accessible_value_equal]
  | booleanVal b => simp [class_equal, gtk_boolean_accessible_value_equal]
  | tokenVal f v => simp [class_equal, gtk_token_accessible_value_equal]

/-- The two collect switches agree row by row on equivalent inputs. -/
theorem collectFromArgs_eq_collectFromGValue {α : Type}
    (cstate : GtkAccessibleCollect α) (a : Arg) (gv : GValue)
    (h : argMatches cstate.ctype a gv) :
    collectFromArgs cstate [a] = collectFromGValue cstate gv := by
  obtain ⟨x, ct, nm, c⟩ := cstate
  cases ct <;> cases a <;> cases gv <;>
    simp_all [argMatches, collectFromArgs, collectFromGValue,
      g_value_get_boolean, g_value_get_int, g_value_get_enum,
      g_value_get_double, g_value_get_string, g_value_get_object]

/-- Iterated `ref` adds to the count and touches nothing else. -/
theorem ref_iterate (n : Nat) (m : Nat) (d : ValueData) (k : Nat) :
    gtk_accessible_value_ref^[n] ⟨.live m d, k⟩ = ⟨.live (m + n) d, k⟩ := by
  induction n generalizing m with
  | zero => rfl
  | succ n ih =>
      rw [Function.iterate_succ_apply]
      have : gtk_accessible_value_ref ⟨.live m d, k⟩ = ⟨.live (m + 1) d, k⟩ := rfl
      rw [this, ih]
      congr 2
      omega

/-- Iterated `unref` from count `n + 1` comes back to count 1 without
freeing and without running any finalize hook. -/
theorem unref_iterate (n : Nat) (d : ValueData) (k : Nat) :
    gtk_accessible_value_unref^[n] ⟨.live (n + 1) d, k⟩ = ⟨.live 1 d, k⟩ := by
  induction n with
  | zero => rfl
  | succ n ih =>
      rw [Function.iterate_succ_apply]
      have hstep : gtk_accessible_value_unref ⟨.live (n + 1 + 1) d, k⟩ = ⟨.live (n + 1) d, k⟩ := by
        simp [gtk_accessible_value_unref]
      rw [hstep, ih]

/-! ## Claim theorems -/

/-- C1 counterexample: the RELEVANT property is declared string-kind in
the `collect_props` table, yet `gtk_accessible_value_get_default_for_property`
puts it in the `return NULL` group, so a string-kind property does fall
into the no-default branch. -/
theorem relevant_string_kind_has_no_default :
    (collect_props .relevant).ctype = .string ∧
    gtk_accessible_value_get_default_for_property .relevant = none :=
  ⟨rfl, rfl⟩

/-- C1 (amended): every property whose declared valueKind is string
other than RELEVANT defaults to a newly constructed empty string, and the
no-value default is produced exactly by the reference-typed properties
together with the string-kind RELEVANT. -/
theorem default_for_property_string_kinds (p : GtkAccessibleProperty) :
    (p ≠ .relevant → (collect_props p).ctype = .string →
      gtk_accessible_value_get_default_for_property p =
        some (gtk_string_accessible_value_new "")) ∧
    (gtk_accessible_value_get_default_for_property p = none ↔
      ((collect_props p).ctype = .ref ∨ p = .relevant)) := by
  cases p <;> exact ⟨by decide, by decide⟩

/-- C1 witness: the LABEL property is string-kind and defaults to the
empty string. -/
theorem default_for_property_string_kinds_witness :
    gtk_accessible_value_get_default_for_property .label =
      some (gtk_string_accessible_value_new "") :=
  (default_for_property_string_kinds .label).1 (by decide) (by decide)

/-- C2: `gtk_accessible_value_equal` is NULL-safe: the same reference
(including both NULL) compares TRUE, exactly one NULL compares FALSE, and
otherwise the result is the kind-specific equality of the first value's
class applied to the two values. -/
theorem equal_null_safe :
    (gtk_accessible_value_equal none none = true) ∧
    (∀ a : ValueRef, gtk_accessible_value_equal (some a) none = false) ∧
    (∀ b : ValueRef, gtk_accessible_value_equal none (some b) = false) ∧
    (∀ a b : ValueRef, a.addr = b.addr →
      gtk_accessible_value_equal (some a) (some b) = true) ∧
    (∀ a b : ValueRef, a.addr ≠ b.addr →
      gtk_accessible_value_equal (some a) (some b) = class_equal a.data b.data) := by
  refine ⟨rfl, fun a => rfl, fun b => rfl, fun a b h => ?_, fun a b h => ?_⟩
  · simp [gtk_accessible_value_equal, h]
  · simp [gtk_accessible_value_equal, h]

/-- C2 witness: the same-reference and kind-dispatch branches at
concrete inputs. -/
theorem equal_null_safe_witness :
    gtk_accessible_value_equal (some ⟨0, .intVal 1⟩) (some ⟨0, .intVal 1⟩) = true ∧
    gtk_accessible_value_equal (some ⟨0, .intVal 1⟩) (some ⟨1, .intVal 2⟩) =
      class_equal (.intVal 1) (.intVal 2) :=
  ⟨equal_null_safe.2.2.2.1 ⟨0, .intVal 1⟩ ⟨0, .intVal 1⟩ rfl,
   equal_null_safe.2.2.2.2 ⟨0, .intVal 1⟩ ⟨1, .intVal 2⟩ (by decide)⟩

/-- C3 counterexample: two distinct number instances constructed from the
same payload NaN compare unequal (`G_APPROX_VALUE` is false on NaN), so
the claimed reflexivity does not extend to non-finite double payloads. -/
theorem equal_nan_instances_counterexample :
    gtk_accessible_value_equal
      (some ⟨0, gtk_number_accessible_value_new .nan⟩)
      (some ⟨1, gtk_number_accessible_value_new .nan⟩) = false := by
  decide

/-- C3 (amended): for distinct instances, equality of constructed values
is exactly the kind's comparison rule — exact for int/string/boolean/
token, tolerance 0.001 for finite number payloads, link identity for
references; for non-finite number payloads the rule (and hence
reflexivity) fails, as the counterexample shows. -/
theorem equal_constructor_payloads (n1 n2 : Nat) (h : n1 ≠ n2) :
    (∀ i j : Int,
      gtk_accessible_value_equal (some ⟨n1, gtk_int_accessible_value_new i⟩)
        (some ⟨n2, gtk_int_accessible_value_new j⟩) = decide (i = j)) ∧
    (∀ s t : String,
      gtk_accessible_value_equal (some ⟨n1, gtk_string_accessible_value_new s⟩)
        (some ⟨n2, gtk_string_accessible_value_new t⟩) = decide (s = t)) ∧
    (∀ p q : ℚ,
      gtk_accessible_value_equal (some ⟨n1, gtk_number_accessible_value_new (.finite p)⟩)
        (some ⟨n2, gtk_number_accessible_value_new (.finite q)⟩) =
        decide (|p - q| < 1/1000)) ∧
    (∀ o1 o2 : Nat,
      gtk_accessible_value_equal
        ((gtk_reference_accessible_value_new (some o1)).map (ValueRef.mk n1))
        ((gtk_reference_accessible_value_new (some o2)).map (ValueRef.mk n2)) =
        decide (o1 = o2)) ∧
    (∀ b c : Bool,
      gtk_accessible_value_equal (some ⟨n1, gtk_boolean_accessible_value_new b⟩)
        (some ⟨n2, gtk_boolean_accessible_value_new c⟩) = decide (b = c)) ∧
    (∀ f : TokenFamily, ∀ i j : Int,
      gtk_accessible_value_equal (some ⟨n1, ValueData.tokenVal f i⟩)
        (some ⟨n2, ValueData.tokenVal f j⟩) = decide (i = j)) := by
  refine ⟨fun i j => ?_, fun s t => ?_, fun p q => ?_, fun o1 o2 => ?_,
    fun b c => ?_, fun f i j => ?_⟩
  · simp [gtk_accessible_value_equal, h, class_equal, gtk_int_accessible_value_new,
      gtk_int_accessible_value_equal]
  · by_cases hst : s = t
    · subst hst
      simp [gtk_accessible_value_equal, h, class_equal, gtk_string_accessible_value_new,
        gtk_string_accessible_value_equal]
    · simp [gtk_accessible_value_equal, h, class_equal, gtk_string_accessible_value_new,
        gtk_string_accessible_value_equal, hst]
  · simpa [gtk_accessible_value_equal, h, class_equal, gtk_number_accessible_value_new,
      gtk_number_accessible_value_equal] using gdouble_approx_eq_decide p q
  · simp [gtk_accessible_value_equal, h, class_equal, gtk_reference_accessible_value_new,
      gtk_reference_accessible_value_equal]
  · simp [gtk_accessible_value_equal, h, class_equal, gtk_boolean_accessible_value_new,
      gtk_boolean_accessible_value_equal]
  · simp [gtk_accessible_value_equal, h, class_equal, gtk_token_accessible_value_equal]

/-- C3 witness: two distinct int instances with equal payloads compare
equal. -/
theorem equal_constructor_payloads_witness :
    gtk_accessible_value_equal (some ⟨0, gtk_int_accessible_value_new 5⟩)
      (some ⟨1, gtk_int_accessible_value_new 5⟩) = decide ((5 : Int) = 5) :=
  (equal_constructor_payloads 0 1 (by decide)).1 5 5

/-- C4: the number tolerance boundary: 1.0 vs 1.0005 is equal, 1.0 vs
1.002 is not, and in general two distinct finite-payload number instances
are equal exactly when the absolute payload difference is strictly below
0.001. -/
theorem equal_number_tolerance :
    (gtk_accessible_value_equal
      (some ⟨0, gtk_number_accessible_value_new (.finite 1)⟩)
      (some ⟨1, gtk_number_accessible_value_new (.finite (10005/10000))⟩) = true) ∧
    (gtk_accessible_value_equal
      (some ⟨0, gtk_number_accessible_value_new (.finite 1)⟩)
      (some ⟨1, gtk_number_accessible_value_new (.finite (1002/1000))⟩) = false) ∧
    (∀ (p q : ℚ) (n1 n2 : Nat), n1 ≠ n2 →
      (gtk_accessible_value_equal (some ⟨n1, gtk_number_accessible_value_new (.finite p)⟩)
          (some ⟨n2, gtk_number_accessible_value_new (.finite q)⟩) = true ↔
        |p - q| < 1/1000)) := by
  have key : ∀ (p q : ℚ) (n1 n2 : Nat), n1 ≠ n2 →
      (gtk_accessible_value_equal (some ⟨n1, gtk_number_accessible_value_new (.finite p)⟩)
          (some ⟨n2, gtk_number_accessible_value_new (.finite q)⟩) = true ↔
        |p - q| < 1/1000) := by
    intro p q n1 n2 h
    have hd : gtk_accessible_value_equal
        (some ⟨n1, gtk_number_accessible_value_new (.finite p)⟩)
        (some ⟨n2, gtk_number_accessible_value_new (.finite q)⟩) =
        G_APPROX_VALUE (.finite p) (.finite q) (.finite (1/1000)) := by
      simp [gtk_accessible_value_equal, h, class_equal, gtk_number_accessible_value_new,
        gtk_number_accessible_value_equal]
    rw [hd]
    exact gdouble_approx_finite_iff p q
  refine ⟨?_, ?_, key⟩
  · refine (key 1 (10005/10000) 0 1 (by decide)).mpr ?_
    have habs : |(1 : ℚ) - 10005/10000| = 1/2000 := by
      rw [abs_of_nonpos (by norm_num)]
      norm_num
    rw [habs]
    norm_num
  · have hnot : ¬ (|(1 : ℚ) - 1002/1000| < 1/1000) := by
      have habs : |(1 : ℚ) - 1002/1000| = 1/500 := by
        rw [abs_of_nonpos (by norm_num)]
        norm_num
      rw [habs]
      norm_num
    cases hb : gtk_accessible_value_equal
        (some ⟨0, gtk_number_accessible_value_new (.finite 1)⟩)
        (some ⟨1, gtk_number_accessible_value_new (.finite (1002/1000))⟩) with
    | false => rfl
    | true => exact absurd ((key 1 (1002/1000) 0 1 (by decide)).mp hb) hnot

/-- C4 witness: identical finite payloads are within tolerance. -/
theorem equal_number_tolerance_witness :
    gtk_accessible_value_equal (some ⟨0, gtk_number_accessible_value_new (.finite 1)⟩)
      (some ⟨1, gtk_number_accessible_value_new (.finite 1)⟩) = true :=
  (equal_number_tolerance.2.2 1 1 0 1 (by decide)).mpr (by norm_num)

/-- C5: n retains followed by n releases leave the instance live at
count 1 with its data unchanged and no finalize run; the single further
release frees the storage, running the class finalize hook exactly once
when the class defines one (string/reference) and never otherwise (the
int/number classes leave the slot NULL). -/
theorem refcount_balanced_finalize_once (d : ValueData) (n : Nat) :
    gtk_accessible_value_ref^[n] (⟨.live 1 d, 0⟩ : RcState) = ⟨.live (n + 1) d, 0⟩ ∧
    gtk_accessible_value_unref^[n]
        (gtk_accessible_value_ref^[n] (⟨.live 1 d, 0⟩ : RcState)) = ⟨.live 1 d, 0⟩ ∧
    gtk_accessible_value_unref
        (gtk_accessible_value_unref^[n]
          (gtk_accessible_value_ref^[n] (⟨.live 1 d, 0⟩ : RcState))) =
      ⟨.freed, if class_hasFinalize d then 1 else 0⟩ := by
  have h1 : gtk_accessible_value_ref^[n] (⟨.live 1 d, 0⟩ : RcState) =
      ⟨.live (n + 1) d, 0⟩ := by
    simpa [Nat.add_comm] using ref_iterate n 1 d 0
  have h2 : gtk_accessible_value_unref^[n] (⟨Mem.live (n + 1) d, 0⟩ : RcState) =
      ⟨.live 1 d, 0⟩ := unref_iterate n d 0
  refine ⟨h1, ?_, ?_⟩
  · rw [h1]
    exact h2
  · rw [h1, h2]
    simp [gtk_accessible_value_unref]

/-- C6: once the referenced object's destruction has run the registered
`remove_weak_ref` callback, the link is NULL: printing yields the
`"<null>"` sentinel, equality treats the value as holding a NULL
reference (equal to another reference value exactly when that one's link
is also NULL), and the typed accessor returns NULL — the instance itself
stays valid. -/
theorem reference_cleared_weak_ref (obj n1 n2 : Nat) (r : Option Nat) (h : n1 ≠ n2) :
    gtk_reference_accessible_value_new (some obj) = some (ValueData.refVal (some obj)) ∧
    remove_weak_ref (ValueData.refVal (some obj)) = ValueData.refVal none ∧
    gtk_accessible_value_to_string (some (remove_weak_ref (ValueData.refVal (some obj)))) =
      some "<null>" ∧
    gtk_accessible_value_equal (some ⟨n1, remove_weak_ref (ValueData.refVal (some obj))⟩)
      (some ⟨n2, ValueData.refVal r⟩) = decide (r = none) ∧
    gtk_reference_accessible_value_get
      (some (remove_weak_ref (ValueData.refVal (some obj)))) = none := by
  refine ⟨rfl, rfl, rfl, ?_, rfl⟩
  cases r <;>
    simp [gtk_accessible_value_equal, h, class_equal, remove_weak_ref,
      gtk_reference_accessible_value_equal]

/-- C6 witness: the cleared reference value prints the NULL sentinel. -/
theorem reference_cleared_weak_ref_witness :
    gtk_accessible_value_to_string (some (remove_weak_ref (ValueData.refVal (some 7)))) =
      some "<null>" :=
  (reference_cleared_weak_ref 7 0 1 none (by decide)).2.2.1

/-- C7 counterexample: for the number property VALUE_MAX with payload
NaN, the positional and boxed decode paths produce the same value, yet
two instances of that value do not compare equal, refuting the claim as
universally stated. -/
theorem collect_paths_nan_counterexample :
    gtk_accessible_value_collect_for_property .valueMax [Arg.doubleArg .nan] =
      some (ValueData.numberVal .nan) ∧
    gtk_accessible_value_collect_for_property_value .valueMax (GValue.doubleVal .nan) =
      some (ValueData.numberVal .nan) ∧
    gtk_accessible_value_equal (some ⟨0, ValueData.numberVal .nan⟩)
      (some ⟨1, ValueData.numberVal .nan⟩) = false :=
  ⟨rfl, rfl, by decide⟩

/-- C7 (amended): for every state or property and equivalent typed
inputs, the positional and boxed decode paths dispatch through the same
table row and produce identical values; the two produced instances
compare equal whenever the payload is not a non-finite double. -/
theorem collect_paths_agree :
    (∀ (p : GtkAccessibleProperty) (a : Arg) (gv : GValue),
      argMatches (collect_props p).ctype a gv →
      gtk_accessible_value_collect_for_property p [a] =
        gtk_accessible_value_collect_for_property_value p gv) ∧
    (∀ (st : GtkAccessibleState) (a : Arg) (gv : GValue),
      argMatches (collect_states st).ctype a gv →
      gtk_accessible_value_collect_for_state st [a] =
        gtk_accessible_value_collect_for_state_value st gv) ∧
    (∀ (p : GtkAccessibleProperty) (a : Arg) (v : ValueData) (n1 n2 : Nat),
      gtk_accessible_value_collect_for_property p [a] = some v →
      finitePayload v = true →
      gtk_accessible_value_equal (some ⟨n1, v⟩) (some ⟨n2, v⟩) = true) ∧
    (∀ (st : GtkAccessibleState) (a : Arg) (v : ValueData) (n1 n2 : Nat),
      gtk_accessible_value_collect_for_state st [a] = some v →
      finitePayload v = true →
      gtk_accessible_value_equal (some ⟨n1, v⟩) (some ⟨n2, v⟩) = true) := by
  have hself : ∀ (v : ValueData) (n1 n2 : Nat), finitePayload v = true →
      gtk_accessible_value_equal (some ⟨n1, v⟩) (some ⟨n2, v⟩) = true := by
    intro v n1 n2 hf
    by_cases hn : n1 = n2
    · simp [gtk_accessible_value_equal, hn]
    · simp [gtk_accessible_value_equal, hn, class_equal_self_of_finite v hf]
  refine ⟨fun p a gv h => ?_, fun st a gv h => ?_,
    fun _ _ v n1 n2 _ hf => hself v n1 n2 hf,
    fun _ _ v n1 n2 _ hf => hself v n1 n2 hf⟩
  · exact collectFromArgs_eq_collectFromGValue (collect_props p) a gv h
  · exact collectFromArgs_eq_collectFromGValue (collect_states st) a gv h

/-- C7 witness: the two decode paths agree on the LABEL property with
the string "x". -/
theorem collect_paths_agree_witness :
    gtk_accessible_value_collect_for_property .label [Arg.stringArg "x"] =
      gtk_accessible_value_collect_for_property_value .label (GValue.stringVal (some "x")) :=
  collect_paths_agree.1 .label (Arg.stringArg "x") (GValue.stringVal (some "x")) rfl

/-- C8: constructing a string value copies the string and caches its
length, print appends the raw contents, and toString recovers exactly
the input string. -/
theorem string_round_trip (s : String) :
    gtk_string_accessible_value_new s = ValueData.stringVal s s.length ∧
    gtk_accessible_value_to_string (some (gtk_string_accessible_value_new s)) = some s := by
  refine ⟨rfl, ?_⟩
  simp [gtk_accessible_value_to_string, gtk_accessible_value_print, class_print,
    gtk_string_accessible_value_new, gtk_string_accessible_value_print]

/-- C9: the BUSY state defaults to boolean FALSE, the LABEL property to
the empty string (both compare equal to freshly constructed values), and
the ACTIVE_DESCENDANT property has no default. -/
theorem defaults_busy_label_active_descendant :
    gtk_accessible_value_get_default_for_state .busy =
      some (gtk_boolean_accessible_value_new false) ∧
    gtk_accessible_value_equal (some ⟨0, gtk_boolean_accessible_value_new false⟩)
      (some ⟨1, gtk_boolean_accessible_value_new false⟩) = true ∧
    gtk_accessible_value_get_default_for_property .label =
      some (gtk_string_accessible_value_new "") ∧
    gtk_accessible_value_equal (some ⟨0, gtk_string_accessible_value_new ""⟩)
      (some ⟨1, gtk_string_accessible_value_new ""⟩) = true ∧
    gtk_accessible_value_get_default_for_property .activeDescendant = none :=
  ⟨rfl, by decide, rfl, by decide, rfl⟩

/-- C10: each typed accessor invoked on NULL or on a value of a
different kind returns its fixed neutral result (0 for int, 0.0 for
number, NULL for string and reference) after the checked precondition
fails; being a pure read, it modifies nothing and does not abort. -/
theorem typed_accessors_neutral :
    (∀ v : Option ValueData, (∀ i : Int, v ≠ some (.intVal i)) →
      gtk_int_accessible_value_get v = 0) ∧
    (∀ v : Option ValueData, (∀ g : GDouble, v ≠ some (.numberVal g)) →
      gtk_number_accessible_value_get v = .finite 0) ∧
    (∀ v : Option ValueData, (∀ (s : String) (l : Nat), v ≠ some (.stringVal s l)) →
      gtk_string_accessible_value_get v = none) ∧
    (∀ v : Option ValueData, (∀ r : Option Nat, v ≠ some (.refVal r)) →
      gtk_reference_accessible_value_get v = none) := by
  refine ⟨fun v h => ?_, fun v h => ?_, fun v h => ?_, fun v h => ?_⟩
  · cases v with
    | none => rfl
    | some d =>
        cases d with
        | intVal i => exact absurd rfl (h i)
        | numberVal g => rfl
        | stringVal s l => rfl
        | refVal r => rfl
        | booleanVal b => rfl
        | tokenVal f i => rfl
  · cases v with
    | none => rfl
    | some d =>
        cases d with
        | intVal i => rfl
        | numberVal g => exact absurd rfl (h g)
        | stringVal s l => rfl
        | refVal r => rfl
        | booleanVal b => rfl
        | tokenVal f i => rfl
  · cases v with
    | none => rfl
    | some d =>
        cases d with
        | intVal i => rfl
        | numberVal g => rfl
        | stringVal s l => exact absurd rfl (h s l)
        | refVal r => rfl
        | booleanVal b => rfl
        | tokenVal f i => rfl
  · cases v with
    | none => rfl
    | some d =>
        cases d with
        | intVal i => rfl
        | numberVal g => rfl
        | stringVal s l => rfl
        | refVal r => exact absurd rfl (h r)
        | booleanVal b => rfl
        | tokenVal f i => rfl

/-- C10 witness: the four accessors at NULL or mismatched kinds. -/
theorem typed_accessors_neutral_witness :
    gtk_int_accessible_value_get (some (ValueData.booleanVal true)) = 0 ∧
    gtk_number_accessible_value_get none = GDouble.finite 0 ∧
    gtk_string_accessible_value_get (some (ValueData.intVal 3)) = none ∧
    gtk_reference_accessible_value_get (some (ValueData.stringVal "a" 1)) = none :=
  ⟨typed_accessors_neutral.1 _ (fun _ hcon => ValueData.noConfusion (Option.some.inj hcon)),
   typed_accessors_neutral.2.1 _ (fun _ hcon => Option.noConfusion hcon),
   typed_accessors_neutral.2.2.1 _ (fun _ _ hcon => ValueData.noConfusion (Option.some.inj hcon)),
   typed_accessors_neutral.2.2.2 _ (fun _ hcon => ValueData.noConfusion (Option.some.inj hcon))⟩
